import Mathlib

/-!
Verification of `src/aiforge/utils/manage_docker_services.py` (AIForge's
Docker service manager).  The script is a sequence of external-process
invocations; we embed it shallowly: each external command's observable
outcome (exit status, stdout, or a raised exception) is an input of the
embedded function, `Option` models a raised exception, and the embedded
functions return the same booleans / collections the Python code computes,
together with an explicit record of which side effects were performed.
-/

namespace ManageDockerServices

/-! ### String helpers mirroring Python primitives -/

/-- Python's substring test `sub in s` (on the character sequence). -/
def strContains (s sub : String) : Bool := decide (sub.data <:+: s.data)

/-- Python's `s.lower()` (ASCII case folding, which is all the script needs). -/
def lowerStr (s : String) : String := ⟨s.data.map Char.toLower⟩

/-- Python's `s.strip()`: remove leading and trailing whitespace. -/
def pyStrip (s : String) : String :=
  ⟨((s.data.dropWhile Char.isWhitespace).reverse.dropWhile Char.isWhitespace).reverse⟩

/-- Python's `s.split(sep)` for a one-character separator `sep`, on character
lists: splits at every occurrence, keeping empty pieces. -/
def splitOnChar (c : Char) : List Char → List (List Char)
  | [] => [[]]
  | a :: t =>
      if a = c then [] :: splitOnChar c t
      else
        match splitOnChar c t with
        | h :: r => (a :: h) :: r
        | [] => [[a]]

/-! ### `_remove_aiforge_built_images_only` (lines 391-427)

The Docker CLI lists images as `repository:tag<TAB>id` lines.  For each line
containing a tab, the code splits at the first tab, takes the part of the
`repository:tag` field before the first colon, and marks the id for removal
when that repository name contains `"aiforge"` (lowercased) and no
preservation substring. -/

/-- The preservation set `preserve_images = {"python", "searxng/searxng", "nginx"}`. -/
def preserve_images : List String := ["python", "searxng/searxng", "nginx"]

/-- Python `repo_tag.split(":")[0]`: the part of the string before the first
colon (the whole string when there is no colon). -/
def repoOf (repoTag : String) : String := ⟨repoTag.data.takeWhile (fun c => c ≠ ':')⟩

/-- The marking decision: `any(keyword in repo.lower() for keyword in ["aiforge"])
and not any(base in repo.lower() for base in preserve_images)`. -/
def shouldRemoveImage (repo : String) : Bool :=
  (["aiforge"].any fun keyword => strContains (lowerStr repo) keyword) &&
  !(preserve_images.any fun base => strContains (lowerStr repo) base)

/-- Python `line.split("\t", 1)` guarded by `"\t" in line`: the part before the
first tab and everything after it. -/
def splitLine (line : String) : Option (String × String) :=
  if strContains line "\t" then
    some (⟨line.data.takeWhile (fun c => c ≠ '\t')⟩,
          ⟨(line.data.dropWhile (fun c => c ≠ '\t')).tail⟩)
  else none

/-- The `images_to_remove` list accumulated by the loop over the listed lines. -/
def imagesToRemove (lines : List String) : List String :=
  lines.filterMap fun line =>
    match splitLine line with
    | some (repoTag, imageId) =>
        if shouldRemoveImage (repoOf repoTag) then some imageId else none
    | none => none

/-- `_remove_aiforge_built_images_only`, from the raw stdout of the image
listing: an empty (stripped) stdout removes nothing, otherwise the stripped
stdout is split into lines and filtered. -/
def remove_aiforge_built_images_only (stdout : String) : List String :=
  if pyStrip stdout = "" then []
  else imagesToRemove ((splitOnChar '\n' (pyStrip stdout).data).map String.mk)

/-! ### Helper lemmas for the image filter -/

theorem takeWhile_append_of_all {p : Char → Bool} {l₁ l₂ : List Char}
    (h : ∀ c ∈ l₁, p c = true) :
    (l₁ ++ l₂).takeWhile p = l₁ ++ l₂.takeWhile p := by
  induction l₁ with
  | nil => rfl
  | cons a t ih =>
      simp [List.takeWhile_cons, h a (by simp), ih (fun c hc => h c (by simp [hc]))]

theorem dropWhile_append_of_all {p : Char → Bool} {l₁ l₂ : List Char}
    (h : ∀ c ∈ l₁, p c = true) :
    (l₁ ++ l₂).dropWhile p = l₂.dropWhile p := by
  induction l₁ with
  | nil => rfl
  | cons a t ih =>
      simp [List.dropWhile_cons, h a (by simp), ih (fun c hc => h c (by simp [hc]))]

theorem shouldRemoveImage_iff (repo : String) :
    shouldRemoveImage repo = true ↔
      (strContains (lowerStr repo) "aiforge" = true ∧
       ∀ base ∈ preserve_images, strContains (lowerStr repo) base = false) := by
  simp [shouldRemoveImage, preserve_images, List.any_eq_true, Bool.and_eq_true,
    Bool.not_eq_true, and_assoc]

theorem data_append3 (a b c : String) :
    (a ++ b ++ c).data = a.data ++ (b.data ++ c.data) := by
  simp [String.data_append]

/-- C1: for a listed image line `repoTag ++ TAB ++ imageId` (the repository:tag
field itself containing no tab), the bare repository name is the substring of
the repository:tag field before the first colon, and the image id is marked
for removal if and only if the lowercased repository name contains the marker
substring "aiforge" and contains none of the preservation substrings
"python", "searxng/searxng", "nginx"; the preservation check overrides the
marker match. -/
theorem c1_targeted_image_removal (repoTag imageId : String)
    (hTab : '\t' ∉ repoTag.data) :
    (∀ name tag : String, ':' ∉ name.data → repoOf (name ++ ":" ++ tag) = name) ∧
    imagesToRemove [repoTag ++ "\t" ++ imageId] =
      (if strContains (lowerStr (repoOf repoTag)) "aiforge" = true ∧
          (∀ base ∈ preserve_images, strContains (lowerStr (repoOf repoTag)) base = false)
       then [imageId] else []) := by
  constructor
  · intro name tag hColon
    have hdata : (name ++ ":" ++ tag).data = name.data ++ (':' :: tag.data) := by
      rw [data_append3]; rfl
    have hall : ∀ c ∈ name.data, (decide (c ≠ ':')) = true := by
      intro c hc
      simp only [decide_eq_true_eq]
      exact fun h => hColon (h ▸ hc)
    have : (name ++ ":" ++ tag).data.takeWhile (fun c => decide (c ≠ ':')) = name.data := by
      rw [hdata, takeWhile_append_of_all hall]
      simp [List.takeWhile_cons]
    cases name with
    | mk d => simp only [repoOf]; exact congrArg String.mk this
  · have hdata : (repoTag ++ "\t" ++ imageId).data = repoTag.data ++ ('\t' :: imageId.data) := by
      rw [data_append3]; rfl
    have hmem : ('\t' : Char) ∈ (repoTag ++ "\t" ++ imageId).data := by
      rw [hdata]; simp
    have hcontains : strContains (repoTag ++ "\t" ++ imageId) "\t" = true := by
      simp only [strContains, decide_eq_true_eq]
      exact ⟨repoTag.data, imageId.data, by rw [hdata]; simp⟩
    have hall : ∀ c ∈ repoTag.data, (decide (c ≠ '\t')) = true := by
      intro c hc
      simp only [decide_eq_true_eq]
      exact fun h => hTab (h ▸ hc)
    have htake : (repoTag ++ "\t" ++ imageId).data.takeWhile (fun c => decide (c ≠ '\t'))
        = repoTag.data := by
      rw [hdata, takeWhile_append_of_all hall]
      simp [List.takeWhile_cons]
    have hdrop : ((repoTag ++ "\t" ++ imageId).data.dropWhile (fun c => decide (c ≠ '\t'))).tail
        = imageId.data := by
      rw [hdata, dropWhile_append_of_all hall]
      simp [List.dropWhile_cons]
    have hsplit : splitLine (repoTag ++ "\t" ++ imageId) = some (repoTag, imageId) := by
      simp only [splitLine, hcontains, if_true, htake, hdrop]
    simp only [imagesToRemove, List.filterMap, hsplit]
    by_cases h : shouldRemoveImage (repoOf repoTag) = true
    · rw [if_pos h, if_pos ((shouldRemoveImage_iff _).mp h)]
    · rw [if_neg h, if_neg (fun hc => h ((shouldRemoveImage_iff _).mpr hc))]

/-- Witness for C1 at a concrete listed line: `aiforge-engine:latest<TAB>sha1`
is marked for removal. -/
theorem c1_targeted_image_removal_witness :
    imagesToRemove ["aiforge-engine:latest\tsha1"] = ["sha1"] := by
  have h := (c1_targeted_image_removal "aiforge-engine:latest" "sha1" (by decide)).2
  rw [show ("aiforge-engine:latest" ++ "\t" ++ "sha1") = "aiforge-engine:latest\tsha1"
    from by decide] at h
  rw [h]
  decide

/-! ### `check_docker_environment` (lines 53-138)

External observations feeding the detection pass.  `Option Nat` is an exit
status when the command could be run, `none` when the invocation itself raised
(`FileNotFoundError` / any exception, both of which the code catches around
the corresponding call); `Option String` is likewise the stdout of the image
listing or `none` for a caught exception. -/

structure DockerEnv where
  dockerVersion : Option Nat
  dockerInfo : Option Nat
  composeVersion : Option Nat
  composeFileExists : Bool
  devComposeFileExists : Bool
  imagesOutput : Option String
  deriving Repr, DecidableEq

/-- The six keys of the `checks` dictionary, in insertion order. -/
def checkKeys : List String :=
  ["docker_available", "docker_compose_available", "docker_running",
   "compose_file_exists", "dev_compose_file_exists", "aiforge_image_exists"]

/-- The initial `checks` dictionary: every key bound to `False`. -/
def initChecks : List (String × Bool) := checkKeys.map (fun k => (k, false))

/-- Python dict assignment `d[key] = val`: replaces the binding of an existing
key in place (appends when the key is new, which never happens here). -/
def setKey : List (String × Bool) → String → Bool → List (String × Bool)
  | [], key, val => [(key, val)]
  | (k, v) :: rest, key, val =>
      if k = key then (k, val) :: rest else (k, v) :: setKey rest key val

/-- Python dict read `d[key]` (all reads are of present keys). -/
def getCheck (checks : List (String × Bool)) (key : String) : Bool :=
  (checks.lookup key).getD false

/-- `check_docker_environment`: returns the `checks` dictionary together with
the list of checks that were actually attempted, in order.  A failing
`docker --version` returns immediately; a failing `docker info` also returns
immediately; the remaining checks each record their own outcome and fall
through. -/
def check_docker_environment (env : DockerEnv) : List (String × Bool) × List String :=
  let checks := initChecks
  match env.dockerVersion with
  | none => (checks, ["docker --version"])
  | some rc =>
    if rc ≠ 0 then (checks, ["docker --version"])
    else
      let checks := setKey checks "docker_available" true
      match env.dockerInfo with
      | none => (checks, ["docker --version", "docker info"])
      | some rc₂ =>
        if rc₂ ≠ 0 then (checks, ["docker --version", "docker info"])
        else
          let checks := setKey checks "docker_running" true
          let checks :=
            match env.composeVersion with
            | some 0 => setKey checks "docker_compose_available" true
            | _ => checks
          let checks :=
            if env.composeFileExists then setKey checks "compose_file_exists" true else checks
          let checks :=
            if env.devComposeFileExists then
              setKey checks "dev_compose_file_exists" true
            else checks
          let checks :=
            match env.imagesOutput with
            | some s =>
                if pyStrip s ≠ "" then setKey checks "aiforge_image_exists" true else checks
            | none => checks
          (checks,
           ["docker --version", "docker info", "docker-compose --version",
            "compose file exists", "dev compose file exists", "docker images"])

/-- The full trace when nothing short-circuits. -/
def allChecksTrace : List String :=
  ["docker --version", "docker info", "docker-compose --version",
   "compose file exists", "dev compose file exists", "docker images"]

/-- Normal form of the detection pass when both the runtime check and the
daemon check succeed: every remaining check runs and records its own outcome. -/
theorem check_docker_environment_ok (cv : Option Nat) (cf dcf : Bool) (io : Option String) :
    check_docker_environment ⟨some 0, some 0, cv, cf, dcf, io⟩ =
      ([("docker_available", true),
        ("docker_compose_available", decide (cv = some 0)),
        ("docker_running", true),
        ("compose_file_exists", cf),
        ("dev_compose_file_exists", dcf),
        ("aiforge_image_exists",
          match io with
          | some s => decide (pyStrip s ≠ "")
          | none => false)],
       allChecksTrace) := by
  rcases cv with _ | n
  · cases cf <;> cases dcf <;> rcases io with _ | s <;>
      simp [check_docker_environment, allChecksTrace, setKey, initChecks, checkKeys] <;>
      by_cases hs : pyStrip s = "" <;> simp [hs]
  · rcases n with _ | m <;> cases cf <;> cases dcf <;> rcases io with _ | s <;>
      simp [check_docker_environment, allChecksTrace, setKey, initChecks, checkKeys] <;>
      by_cases hs : pyStrip s = "" <;> simp [hs]

/-- Normal form of the detection pass when the runtime check fails. -/
theorem check_docker_environment_no_docker (env : DockerEnv)
    (h : env.dockerVersion ≠ some 0) :
    check_docker_environment env = (initChecks, ["docker --version"]) := by
  obtain ⟨dv, di, cv, cf, dcf, io⟩ := env
  rcases dv with _ | rc
  · rfl
  · have hrc : rc ≠ 0 := by simpa using h
    simp [check_docker_environment, hrc]

/-- Normal form of the detection pass when the runtime check succeeds but the
daemon check fails. -/
theorem check_docker_environment_daemon_down (env : DockerEnv)
    (h₁ : env.dockerVersion = some 0) (h₂ : env.dockerInfo ≠ some 0) :
    check_docker_environment env =
      (setKey initChecks "docker_available" true, ["docker --version", "docker info"]) := by
  obtain ⟨dv, di, cv, cf, dcf, io⟩ := env
  simp only at h₁ h₂
  subst h₁
  rcases di with _ | rc₂
  · rfl
  · have hrc : rc₂ ≠ 0 := by simpa using h₂
    simp [check_docker_environment, hrc]

/-- C9: on every return path of the detection pass — the runtime short-circuit,
the daemon short-circuit, and the full pass — the returned mapping has exactly
the six fixed keys `docker_available`, `docker_compose_available`,
`docker_running`, `compose_file_exists`, `dev_compose_file_exists`,
`aiforge_image_exists`, in insertion order, each bound to a boolean. -/
theorem c9_detection_result_keys (env : DockerEnv) :
    ((check_docker_environment env).1).map Prod.fst = checkKeys := by
  by_cases h₁ : env.dockerVersion = some 0
  · by_cases h₂ : env.dockerInfo = some 0
    · obtain ⟨dv, di, cv, cf, dcf, io⟩ := env
      simp only at h₁ h₂
      subst h₁; subst h₂
      rw [check_docker_environment_ok]
      rfl
    · rw [check_docker_environment_daemon_down env h₁ h₂]
      rfl
  · rw [check_docker_environment_no_docker env h₁]
    rfl

/-- C2 as stated is false: the daemon-info check failure is also fatal to the
pass.  With the runtime available, the daemon check failing, and the
production compose file present, the pass neither attempts the remaining
checks nor records the compose file's presence. -/
theorem c2_counterexample :
    ¬ (getCheck (check_docker_environment ⟨some 0, some 1, some 0, true, true, none⟩).1
          "compose_file_exists" = true ∧
       (check_docker_environment ⟨some 0, some 1, some 0, true, true, none⟩).2
          = allChecksTrace) := by
  decide

/-- C2 (amended): if the runtime-availability check fails, no subsequent check
is attempted and all entries stay false; if the runtime check succeeds but the
daemon-info check fails, the pass likewise returns at once, with only
`docker_available` set and no subsequent check attempted; when both succeed,
every remaining check (orchestrator version, the two file checks, the image
listing) is attempted and each of their failures is non-fatal: each remaining
entry records its own check's outcome regardless of the other checks. -/
theorem c2_detection_short_circuit (env : DockerEnv) :
    (env.dockerVersion ≠ some 0 →
       check_docker_environment env = (initChecks, ["docker --version"])) ∧
    (env.dockerVersion = some 0 → env.dockerInfo ≠ some 0 →
       check_docker_environment env =
         (setKey initChecks "docker_available" true, ["docker --version", "docker info"])) ∧
    (env.dockerVersion = some 0 → env.dockerInfo = some 0 →
       (check_docker_environment env).2 = allChecksTrace ∧
       getCheck (check_docker_environment env).1 "docker_available" = true ∧
       getCheck (check_docker_environment env).1 "docker_running" = true ∧
       getCheck (check_docker_environment env).1 "docker_compose_available"
         = decide (env.composeVersion = some 0) ∧
       getCheck (check_docker_environment env).1 "compose_file_exists"
         = env.composeFileExists ∧
       getCheck (check_docker_environment env).1 "dev_compose_file_exists"
         = env.devComposeFileExists ∧
       getCheck (check_docker_environment env).1 "aiforge_image_exists"
         = (match env.imagesOutput with
            | some s => decide (pyStrip s ≠ "")
            | none => false)) := by
  refine ⟨fun h => check_docker_environment_no_docker env h,
          fun h₁ h₂ => check_docker_environment_daemon_down env h₁ h₂,
          fun h₁ h₂ => ?_⟩
  obtain ⟨dv, di, cv, cf, dcf, io⟩ := env
  simp only at h₁ h₂
  subst h₁; subst h₂
  rw [check_docker_environment_ok]
  exact ⟨rfl, rfl, rfl, rfl, rfl, rfl, rfl⟩

/-- Witness for C2 (amended) at a concrete environment: runtime and daemon up,
orchestrator check failing, production file present, dev file absent, image
listing returning an empty stdout — the failed orchestrator check records
false and the later checks still record their outcomes. -/
theorem c2_detection_short_circuit_witness :
    (check_docker_environment ⟨some 0, some 0, some 1, true, false, some ""⟩).2
        = allChecksTrace ∧
    getCheck (check_docker_environment ⟨some 0, some 0, some 1, true, false, some ""⟩).1
        "docker_compose_available" = false ∧
    getCheck (check_docker_environment ⟨some 0, some 0, some 1, true, false, some ""⟩).1
        "compose_file_exists" = true := by
  have h := c2_detection_short_circuit ⟨some 0, some 0, some 1, true, false, some ""⟩
  obtain ⟨-, -, h₃⟩ := h
  obtain ⟨ht, -, -, hca, hcf, -, -⟩ := h₃ rfl rfl
  exact ⟨ht, by rw [hca]; decide, hcf⟩

/-! ### `build_images_if_needed` (lines 140-210)

Inputs: the image listing's stdout (`none` models the listing call raising,
which the enclosing `except` turns into a failed build step), whether the dev
compose file exists on disk (the code re-checks `Path(...).exists()` here),
and the exit status of the build process when one is started. -/

structure BuildEnv where
  listing : Option String
  buildExit : Nat
  deriving Repr, DecidableEq

structure BuildResult where
  buildInvoked : Bool
  buildDev : Bool
  ok : Bool
  deriving Repr, DecidableEq

def build_images_if_needed (devMode devFileExists : Bool) (env : BuildEnv) : BuildResult :=
  match env.listing with
  | none => ⟨false, false, false⟩
  | some out =>
      if pyStrip out ≠ "" then ⟨false, false, true⟩
      else
        let dev := devMode && devFileExists
        ⟨true, dev, decide (env.buildExit = 0)⟩

/-- The build step's success flag does not depend on the requested mode. -/
theorem build_ok_mode_irrel (a b devFileExists : Bool) (env : BuildEnv) :
    (build_images_if_needed a devFileExists env).ok
      = (build_images_if_needed b devFileExists env).ok := by
  rcases env with ⟨_ | out, be⟩
  · rfl
  · by_cases h : pyStrip out = "" <;> simp [build_images_if_needed, h]

/-- C5: whenever the image listing returns a (stripped) non-empty stdout, the
build step invokes no build command and reports success; the build command is
invoked exactly when the listing returned an empty stdout (a listing that
raises also invokes no build, and fails). -/
theorem c5_build_skip (devMode devFileExists : Bool) (out : String) (be : Nat) :
    (pyStrip out ≠ "" →
       build_images_if_needed devMode devFileExists ⟨some out, be⟩ = ⟨false, false, true⟩) ∧
    ((build_images_if_needed devMode devFileExists ⟨some out, be⟩).buildInvoked
       = decide (pyStrip out = "")) ∧
    (build_images_if_needed devMode devFileExists ⟨none, be⟩).buildInvoked = false := by
  refine ⟨fun h => by simp [build_images_if_needed, h], ?_, rfl⟩
  by_cases h : pyStrip out = "" <;> simp [build_images_if_needed, h]

/-- Witness for C5: a listing stdout naming an existing image skips the build
and succeeds, even when the build exit status would be failing. -/
theorem c5_build_skip_witness :
    build_images_if_needed false true ⟨some "aiforge:latest", 1⟩ = ⟨false, false, true⟩ := by
  exact (c5_build_skip false true "aiforge:latest" 1).1 (by decide)

/-! ### `_check_and_update_searxng_formats` (lines 456-494)

Inputs: whether `yaml` imports, whether `searxng/settings.yml` exists, and the
parsed `config["search"].get("formats", [])` value — `none` models any
exception in the read/parse (caught, the step reports no rewrite). -/

def required_formats : List String := ["html", "json", "csv", "rss"]

/-- Python `set(a) != set(b)` negated: the two lists contain the same values. -/
def sameSet (a b : List String) : Bool :=
  (a.all fun x => b.contains x) && (b.all fun x => a.contains x)

structure FormatResult where
  rewrote : Bool
  returned : Bool
  written : Option (List String)
  deriving Repr, DecidableEq

def check_and_update_searxng_formats (yamlAvailable settingsExists : Bool)
    (currentFormats : Option (List String)) : FormatResult :=
  if ¬yamlAvailable then ⟨false, false, none⟩
  else if ¬settingsExists then ⟨false, false, none⟩
  else
    match currentFormats with
    | none => ⟨false, false, none⟩
    | some current =>
        if ¬sameSet current required_formats then ⟨true, true, some required_formats⟩
        else ⟨false, false, none⟩

theorem sameSet_iff (a b : List String) :
    sameSet a b = true ↔ (∀ x, x ∈ a ↔ x ∈ b) := by
  simp only [sameSet, Bool.and_eq_true, List.all_eq_true]
  constructor
  · rintro ⟨h₁, h₂⟩ x
    exact ⟨fun hx => List.mem_of_elem_eq_true (h₁ x hx),
           fun hx => List.mem_of_elem_eq_true (h₂ x hx)⟩
  · intro h
    exact ⟨fun x hx => List.elem_eq_true_of_mem ((h x).mp hx),
           fun x hx => List.elem_eq_true_of_mem ((h x).mpr hx)⟩

/-- C4: with YAML available and the settings file present and parsed, the step
rewrites the file if and only if the set of values under `search.formats`
differs from `{html, json, csv, rss}` (order-independent); when the sets are
equal nothing is written and the step reports that no rewrite occurred. -/
theorem c4_searxng_formats (current : List String) :
    ((check_and_update_searxng_formats true true (some current)).rewrote = true
       ↔ ¬(∀ x, x ∈ current ↔ x ∈ required_formats)) ∧
    ((∀ x, x ∈ current ↔ x ∈ required_formats) →
       check_and_update_searxng_formats true true (some current)
         = ⟨false, false, none⟩) := by
  constructor
  · by_cases h : sameSet current required_formats = true
    · simp [check_and_update_searxng_formats, h, (sameSet_iff _ _).mp h]
    · have h' : ¬(∀ x, x ∈ current ↔ x ∈ required_formats) :=
        fun hc => h ((sameSet_iff _ _).mpr hc)
      simp only [Bool.not_eq_true] at h
      simp [check_and_update_searxng_formats, h, h']
  · intro h
    have hs := (sameSet_iff current required_formats).mpr h
    simp [check_and_update_searxng_formats, hs]

/-- Witness for C4: the required formats in a different order form the same
set, so the step leaves the file untouched and reports no rewrite. -/
theorem c4_searxng_formats_witness :
    check_and_update_searxng_formats true true (some ["rss", "csv", "json", "html"])
      = ⟨false, false, none⟩ := by
  refine (c4_searxng_formats ["rss", "csv", "json", "html"]).2 ?_
  intro x
  constructor <;> intro h <;> simp only [required_formats, List.mem_cons,
    List.not_mem_nil, or_false] at h ⊢ <;> tauto

/-! ### `start_services` (lines 212-300)

Inputs: the detection environment, the build step's environment, the ignored
exit status of the best-effort `docker-compose down`, the `up -d` outcome
(`none` models the call raising, caught by the enclosing `except`), the
per-service status strings observed by the health check, and the inputs of the
format-reconciliation step.  The result records the effective mode, which
commands ran and with which compose files, the advisory step outputs, and the
returned boolean. -/

structure StartEnv where
  denv : DockerEnv
  benv : BuildEnv
  downExit : Nat
  upOutcome : Option Nat
  healthStatuses : List (Option String)
  fmtYaml : Bool
  fmtExists : Bool
  fmtFormats : Option (List String)
  deriving Repr, DecidableEq

structure StartResult where
  devModeUsed : Bool
  buildInvoked : Bool
  buildDev : Bool
  downRun : Bool
  upRun : Bool
  upDev : Bool
  healthReport : Option (List Bool)
  fmtResult : Option FormatResult
  ok : Bool
  deriving Repr, DecidableEq

/-- Result of an early precondition failure (`return False` before any
command is run). -/
def startFail : StartResult := ⟨false, false, false, false, false, false, none, none, false⟩

/-- `_check_service_health` per-service verdicts: `"Up" in status` for each
observed status string, `false` (status unknown) for a raised query. -/
def healthCheck (statuses : List (Option String)) : List Bool :=
  statuses.map fun st =>
    match st with
    | some status => strContains status "Up"
    | none => false

def start_services (devMode : Bool) (env : StartEnv) : StartResult :=
  let cs := (check_docker_environment env.denv).1
  if getCheck cs "docker_available" = false then startFail
  else if getCheck cs "docker_running" = false then startFail
  else if getCheck cs "docker_compose_available" = false then startFail
  else if getCheck cs "compose_file_exists" = false then startFail
  else
    let devMode := devMode && getCheck cs "dev_compose_file_exists"
    let b := build_images_if_needed devMode env.denv.devComposeFileExists env.benv
    if b.ok = false then
      ⟨devMode, b.buildInvoked, b.buildDev, false, false, false, none, none, false⟩
    else
      match env.upOutcome with
      | none =>
          ⟨devMode, b.buildInvoked, b.buildDev, true, true, devMode, none, none, false⟩
      | some rc =>
          if rc = 0 then
            ⟨devMode, b.buildInvoked, b.buildDev, true, true, devMode,
             some (healthCheck env.healthStatuses),
             some (check_and_update_searxng_formats env.fmtYaml env.fmtExists env.fmtFormats),
             true⟩
          else
            ⟨devMode, b.buildInvoked, b.buildDev, true, true, devMode, none, none, false⟩

/-- C3: with all preconditions of `start` satisfied and the build step
succeeding, the returned boolean equals the success (zero exit status) of the
`up` command alone — for every outcome of the sleep/health/format steps, which
`env` quantifies over. -/
theorem c3_start_returns_up_status (devMode : Bool) (env : StartEnv)
    (h₁ : getCheck (check_docker_environment env.denv).1 "docker_available" = true)
    (h₂ : getCheck (check_docker_environment env.denv).1 "docker_running" = true)
    (h₃ : getCheck (check_docker_environment env.denv).1 "docker_compose_available" = true)
    (h₄ : getCheck (check_docker_environment env.denv).1 "compose_file_exists" = true)
    (h₅ : (build_images_if_needed devMode env.denv.devComposeFileExists env.benv).ok = true) :
    (start_services devMode env).ok = decide (env.upOutcome = some 0) := by
  have hok : (build_images_if_needed
      (devMode && getCheck (check_docker_environment env.denv).1 "dev_compose_file_exists")
      env.denv.devComposeFileExists env.benv).ok = true := by
    rw [build_ok_mode_irrel _ devMode]; exact h₅
  unfold start_services
  simp only [h₁, h₂, h₃, h₄, hok]
  rcases h : env.upOutcome with _ | rc
  · simp
  · by_cases hrc : rc = 0
    · subst hrc; simp
    · simp [hrc]

/-- Witness for C3: all preconditions hold, the image already exists so the
build is skipped, the `up` command exits 0, and `start` returns success. -/
theorem c3_start_returns_up_status_witness :
    (start_services false
        ⟨⟨some 0, some 0, some 0, true, false, some "x"⟩,
         ⟨some "aiforge:latest", 0⟩, 0, some 0, [some "Exited"], true, false, none⟩).ok
      = true := by
  have h := c3_start_returns_up_status false
    ⟨⟨some 0, some 0, some 0, true, false, some "x"⟩,
     ⟨some "aiforge:latest", 0⟩, 0, some 0, [some "Exited"], true, false, none⟩
    (by decide) (by decide) (by decide) (by decide) (by decide)
  simpa using h

/-- When requested mode does not matter (the dev compose file check is false),
the build step never uses the dev compose file. -/
theorem build_not_dev (devFileExists : Bool) (benv : BuildEnv) :
    (build_images_if_needed false devFileExists benv).buildDev = false := by
  rcases benv with ⟨_ | out, be⟩
  · rfl
  · by_cases h : pyStrip out = "" <;> simp [build_images_if_needed, h]

/-- The dev compose file entry of the detection result is false whenever the
file is absent, on every return path. -/
theorem getCheck_dev_of_not_exists (denv : DockerEnv)
    (h : denv.devComposeFileExists = false) :
    getCheck (check_docker_environment denv).1 "dev_compose_file_exists" = false := by
  by_cases h₁ : denv.dockerVersion = some 0
  · by_cases h₂ : denv.dockerInfo = some 0
    · obtain ⟨dv, di, cv, cf, dcf, io⟩ := denv
      simp only at h₁ h₂ h
      subst h₁; subst h₂; subst h
      rw [check_docker_environment_ok]
      rfl
    · rw [check_docker_environment_daemon_down denv h₁ h₂]; rfl
  · rw [check_docker_environment_no_docker denv h₁]; rfl

/-- C6: requesting development mode while the dev compose file is absent does
not fail `start` for that reason: the invocation behaves exactly like a
production-mode invocation (same result), and neither build nor `up` uses the
dev compose file. -/
theorem c6_dev_mode_fallback (env : StartEnv)
    (hdev : env.denv.devComposeFileExists = false)
    (h₁ : getCheck (check_docker_environment env.denv).1 "docker_available" = true)
    (h₂ : getCheck (check_docker_environment env.denv).1 "docker_running" = true)
    (h₃ : getCheck (check_docker_environment env.denv).1 "docker_compose_available" = true)
    (h₄ : getCheck (check_docker_environment env.denv).1 "compose_file_exists" = true) :
    start_services true env = start_services false env ∧
    (start_services true env).devModeUsed = false ∧
    (start_services true env).buildDev = false ∧
    (start_services true env).upDev = false := by
  have hd := getCheck_dev_of_not_exists env.denv hdev
  have heq : start_services true env = start_services false env := by
    unfold start_services
    simp only [hd, Bool.and_false]
  refine ⟨heq, ?_⟩
  rw [heq]
  unfold start_services
  simp only [h₁, h₂, h₃, h₄, hd, Bool.and_false, Bool.false_and]
  have hbd := build_not_dev env.denv.devComposeFileExists env.benv
  by_cases hb : (build_images_if_needed false env.denv.devComposeFileExists env.benv).ok = false
  · simp [hb, hbd]
  · simp only [Bool.not_eq_false] at hb
    rcases h : env.upOutcome with _ | rc
    · simp [hb, hbd]
    · by_cases hrc : rc = 0
      · subst hrc; simp [hb, hbd]
      · simp [hb, hbd, hrc]

/-- Witness for C6: dev mode requested, dev compose file absent, all other
preconditions satisfied — the result is the production-mode result. -/
theorem c6_dev_mode_fallback_witness :
    start_services true
        ⟨⟨some 0, some 0, some 0, true, false, some "x"⟩,
         ⟨some "aiforge:latest", 0⟩, 0, some 0, [], true, false, none⟩
      = start_services false
        ⟨⟨some 0, some 0, some 0, true, false, some "x"⟩,
         ⟨some "aiforge:latest", 0⟩, 0, some 0, [], true, false, none⟩ := by
  exact (c6_dev_mode_fallback
    ⟨⟨some 0, some 0, some 0, true, false, some "x"⟩,
     ⟨some "aiforge:latest", 0⟩, 0, some 0, [], true, false, none⟩
    (by decide) (by decide) (by decide) (by decide) (by decide)).1

/-! ### `stop_services` (lines 302-316)

Inputs: whether the production compose file exists and the teardown outcome —
`some rc` when the command ran to an exit status (a non-zero one is raised as
`CalledProcessError` and caught), `none` when the invocation raised anything
else (propagates to the caller). -/

structure StopResult where
  downAttempted : Bool
  outcome : Option Bool
  deriving Repr, DecidableEq

def stop_services (composeFileExists : Bool) (downOutcome : Option Nat) : StopResult :=
  if composeFileExists = false then ⟨false, some false⟩
  else
    match downOutcome with
    | some rc => ⟨true, some (decide (rc = 0))⟩
    | none => ⟨true, none⟩

/-- C7: `stop` with the production compose file absent returns failure without
invoking teardown; with the file present it runs teardown and returns success
exactly when the teardown command exits with status zero. -/
theorem c7_stop_services (downOutcome : Option Nat) (rc : Nat) :
    stop_services false downOutcome = ⟨false, some false⟩ ∧
    (stop_services true (some rc)).downAttempted = true ∧
    ((stop_services true (some rc)).outcome = some true ↔ rc = 0) := by
  refine ⟨rfl, rfl, ?_⟩
  by_cases h : rc = 0 <;> simp [stop_services, h]

/-! ### `show_status` (lines 318-330) and `main` (lines 497-566) -/

structure StatusResult where
  healthReport : Option (List Bool)
  completed : Bool
  deriving Repr, DecidableEq

/-- `show_status`: `psOutcome` is the process-list command's exit status, or
`none` when the invocation raised something other than `CalledProcessError`
(which propagates, `completed = false`).  A zero exit prints the output and
runs the health check; a non-zero exit raises `CalledProcessError`, caught and
printed.  Either way the function returns no value. -/
def show_status (psOutcome : Option Nat) (healthStatuses : List (Option String)) :
    StatusResult :=
  match psOutcome with
  | none => ⟨none, false⟩
  | some rc =>
      if rc = 0 then ⟨some (healthCheck healthStatuses), true⟩
      else ⟨none, true⟩

inductive Action
  | start | stop | status | cleanup | deepCleanup
  deriving Repr, DecidableEq

inductive DispatchOutcome
  | normal (success : Bool)
  | interrupted
  | raised
  deriving Repr, DecidableEq

/-- External observations feeding `main`'s dispatch: `interrupted` models a
`KeyboardInterrupt` during the dispatched action; `cleanupRaises` /
`deepCleanupRaises` model the (fully caught-around) cleanup bodies raising. -/
structure MainEnv where
  interrupted : Bool
  startArgsDev : Bool
  startEnv : StartEnv
  stopComposeExists : Bool
  stopDownOutcome : Option Nat
  statusPs : Option Nat
  statusHealth : List (Option String)
  cleanupRaises : Bool
  deepCleanupRaises : Bool
  deriving Repr, DecidableEq

/-- The `try` block of `main`: dispatch on the action, observing a normal
boolean, an interrupt, or an uncaught exception. -/
def runAction (a : Action) (env : MainEnv) : DispatchOutcome :=
  if env.interrupted then .interrupted
  else
    match a with
    | .start => .normal (start_services env.startArgsDev env.startEnv).ok
    | .stop =>
        match (stop_services env.stopComposeExists env.stopDownOutcome).outcome with
        | some b => .normal b
        | none => .raised
    | .status =>
        if (show_status env.statusPs env.statusHealth).completed then .normal true
        else .raised
    | .cleanup => .normal (!env.cleanupRaises)
    | .deepCleanup => .normal (!env.deepCleanupRaises)

/-- `sys.exit(0 if success else 1)`, with `KeyboardInterrupt` and any other
exception both setting `success = False` first. -/
def main_exit (a : Action) (env : MainEnv) : Nat :=
  match runAction a env with
  | .normal true => 0
  | .normal false => 1
  | .interrupted => 1
  | .raised => 1

/-- C8: for every valid action, the process exit code is 0 exactly when the
dispatched action reports success, and 1 otherwise — in particular on an
interrupt and on an uncaught exception. -/
theorem c8_exit_code (a : Action) (env : MainEnv) :
    (main_exit a env = 0 ↔ runAction a env = .normal true) ∧
    (env.interrupted = true → main_exit a env = 1) ∧
    (runAction a env = .raised → main_exit a env = 1) ∧
    (main_exit a env = 0 ∨ main_exit a env = 1) := by
  refine ⟨?_, ?_, ?_, ?_⟩
  · rcases h : runAction a env with b | _ | _
    · cases b <;> simp [main_exit, h]
    · simp [main_exit, h]
    · simp [main_exit, h]
  · intro h
    simp [main_exit, runAction, h]
  · intro h
    simp [main_exit, h]
  · rcases h : runAction a env with b | _ | _
    · cases b <;> simp [main_exit, h]
    · simp [main_exit, h]
    · simp [main_exit, h]

/-- Witness for C8: an interrupted `cleanup` invocation exits with code 1. -/
theorem c8_exit_code_witness :
    main_exit .cleanup
        ⟨true, false,
         ⟨⟨none, none, none, false, false, none⟩, ⟨none, 0⟩, 0, none, [], false, false, none⟩,
         true, some 0, some 0, [], false, false⟩ = 1 := by
  exact (c8_exit_code .cleanup
    ⟨true, false,
     ⟨⟨none, none, none, false, false, none⟩, ⟨none, 0⟩, 0, none, [], false, false, none⟩,
     true, some 0, some 0, [], false, false⟩).2.1 rfl

/-- C10 as stated is false: when the process-list invocation raises something
other than a non-zero exit (e.g. the orchestrator binary is missing), the
exception escapes `show_status`, `main` catches it, and the status action
exits 1 despite no interrupt having occurred. -/
theorem c10_counterexample :
    ¬ main_exit .status
        ⟨false, false,
         ⟨⟨none, none, none, false, false, none⟩, ⟨none, 0⟩, 0, none, [], false, false, none⟩,
         true, some 0, none, [], false, false⟩ = 0 := by
  decide

/-- C10 (amended): absent an interrupt, whenever the process-list command runs
to an exit status the status action exits with code 0: a non-zero exit is
caught inside `show_status` and printed (the health check is skipped),
`show_status` completes returning no value, and the dispatcher sets success to
true for the status action unconditionally. -/
theorem c10_status_exit (env : MainEnv) (rc : Nat)
    (hI : env.interrupted = false) (hps : env.statusPs = some rc) :
    main_exit .status env = 0 ∧
    runAction .status env = .normal true ∧
    (show_status env.statusPs env.statusHealth).completed = true ∧
    (rc ≠ 0 → show_status env.statusPs env.statusHealth = ⟨none, true⟩) := by
  have hcompleted : (show_status env.statusPs env.statusHealth).completed = true := by
    rw [hps]
    by_cases h : rc = 0 <;> simp [show_status, h]
  have hrun : runAction .status env = .normal true := by
    simp [runAction, hI, hcompleted]
  refine ⟨by simp [main_exit, hrun], hrun, hcompleted, fun h => ?_⟩
  rw [hps]
  simp [show_status, h]

/-- Witness for C10 (amended): the process-list command exiting non-zero still
yields exit code 0 for the status action. -/
theorem c10_status_exit_witness :
    main_exit .status
        ⟨false, false,
         ⟨⟨none, none, none, false, false, none⟩, ⟨none, 0⟩, 0, none, [], false, false, none⟩,
         true, some 0, some 1, [], false, false⟩ = 0 := by
  exact (c10_status_exit
    ⟨false, false,
     ⟨⟨none, none, none, false, false, none⟩, ⟨none, 0⟩, 0, none, [], false, false, none⟩,
     true, some 0, some 1, [], false, false⟩ 1 rfl rfl).1

end ManageDockerServices
